import Mathlib

/-!
Shallow embedding of the `etl_pipeline` repository (three Python scripts:
`load_countries.py`, `load_indicators.py`, `load_values.py`).

JSON values delivered by the World Bank API are modelled by the inductive
type `Json`; Python `None` is `Json.null`, and JSON numbers are carried as
rationals (no arithmetic is performed on them beyond comparisons).
Fallible Python operations (attribute errors, key errors, type errors)
are modelled with `Except Unit`.
-/

namespace ETL

/-- A parsed JSON value, as the Python scripts receive it from
`response.json()`.  Objects are association lists with string keys. -/
inductive Json where
  | null : Json
  | bool (b : Bool) : Json
  | num (q : ℚ) : Json
  | str (s : String) : Json
  | arr (elems : List Json) : Json
  | obj (fields : List (String × Json)) : Json
  deriving Repr

mutual

/-- Structural decidable equality on `Json` (Python `==` on parsed JSON
trees is deep structural equality). -/
def Json.decEq : (a b : Json) → Decidable (a = b)
  | .null, .null => .isTrue rfl
  | .null, .bool _ => .isFalse (fun h => Json.noConfusion h)
  | .null, .num _ => .isFalse (fun h => Json.noConfusion h)
  | .null, .str _ => .isFalse (fun h => Json.noConfusion h)
  | .null, .arr _ => .isFalse (fun h => Json.noConfusion h)
  | .null, .obj _ => .isFalse (fun h => Json.noConfusion h)
  | .bool _, .null => .isFalse (fun h => Json.noConfusion h)
  | .bool a, .bool b =>
    if h : a = b then .isTrue (by rw [h]) else .isFalse (fun hh => h (Json.bool.inj hh))
  | .bool _, .num _ => .isFalse (fun h => Json.noConfusion h)
  | .bool _, .str _ => .isFalse (fun h => Json.noConfusion h)
  | .bool _, .arr _ => .isFalse (fun h => Json.noConfusion h)
  | .bool _, .obj _ => .isFalse (fun h => Json.noConfusion h)
  | .num _, .null => .isFalse (fun h => Json.noConfusion h)
  | .num _, .bool _ => .isFalse (fun h => Json.noConfusion h)
  | .num a, .num b =>
    if h : a = b then .isTrue (by rw [h]) else .isFalse (fun hh => h (Json.num.inj hh))
  | .num _, .str _ => .isFalse (fun h => Json.noConfusion h)
  | .num _, .arr _ => .isFalse (fun h => Json.noConfusion h)
  | .num _, .obj _ => .isFalse (fun h => Json.noConfusion h)
  | .str _, .null => .isFalse (fun h => Json.noConfusion h)
  | .str _, .bool _ => .isFalse (fun h => Json.noConfusion h)
  | .str _, .num _ => .isFalse (fun h => Json.noConfusion h)
  | .str a, .str b =>
    if h : a = b then .isTrue (by rw [h]) else .isFalse (fun hh => h (Json.str.inj hh))
  | .str _, .arr _ => .isFalse (fun h => Json.noConfusion h)
  | .str _, .obj _ => .isFalse (fun h => Json.noConfusion h)
  | .arr _, .null => .isFalse (fun h => Json.noConfusion h)
  | .arr _, .bool _ => .isFalse (fun h => Json.noConfusion h)
  | .arr _, .num _ => .isFalse (fun h => Json.noConfusion h)
  | .arr _, .str _ => .isFalse (fun h => Json.noConfusion h)
  | .arr a, .arr b =>
    match Json.decEqList a b with
    | .isTrue h => .isTrue (by rw [h])
    | .isFalse h => .isFalse (fun hh => h (Json.arr.inj hh))
  | .arr _, .obj _ => .isFalse (fun h => Json.noConfusion h)
  | .obj _, .null => .isFalse (fun h => Json.noConfusion h)
  | .obj _, .bool _ => .isFalse (fun h => Json.noConfusion h)
  | .obj _, .num _ => .isFalse (fun h => Json.noConfusion h)
  | .obj _, .str _ => .isFalse (fun h => Json.noConfusion h)
  | .obj _, .arr _ => .isFalse (fun h => Json.noConfusion h)
  | .obj a, .obj b =>
    match Json.decEqFields a b with
    | .isTrue h => .isTrue (by rw [h])
    | .isFalse h => .isFalse (fun hh => h (Json.obj.inj hh))

/-- Decidable equality on lists of `Json`. -/
def Json.decEqList : (a b : List Json) → Decidable (a = b)
  | [], [] => .isTrue rfl
  | [], _ :: _ => .isFalse (fun h => List.noConfusion h)
  | _ :: _, [] => .isFalse (fun h => List.noConfusion h)
  | x :: xs, y :: ys =>
    match Json.decEq x y with
    | .isTrue h1 =>
      match Json.decEqList xs ys with
      | .isTrue h2 => .isTrue (by rw [h1, h2])
      | .isFalse h2 => .isFalse (fun hh => h2 (List.cons.inj hh).2)
    | .isFalse h1 => .isFalse (fun hh => h1 (List.cons.inj hh).1)

/-- Decidable equality on JSON object field lists. -/
def Json.decEqFields : (a b : List (String × Json)) → Decidable (a = b)
  | [], [] => .isTrue rfl
  | [], _ :: _ => .isFalse (fun h => List.noConfusion h)
  | _ :: _, [] => .isFalse (fun h => List.noConfusion h)
  | (k1, v1) :: xs, (k2, v2) :: ys =>
    if hk : k1 = k2 then
      match Json.decEq v1 v2 with
      | .isTrue h1 =>
        match Json.decEqFields xs ys with
        | .isTrue h2 => .isTrue (by rw [hk, h1, h2])
        | .isFalse h2 => .isFalse (fun hh => h2 (List.cons.inj hh).2)
      | .isFalse h1 =>
        .isFalse (fun hh => h1 (congrArg Prod.snd (List.cons.inj hh).1))
    else .isFalse (fun hh => hk (congrArg Prod.fst (List.cons.inj hh).1))

end

instance : DecidableEq Json := Json.decEq

/-- Python truthiness of a JSON value (`if not data: ...`). -/
def Json.truthy : Json → Bool
  | .null => false
  | .bool b => b
  | .num q => q ≠ 0
  | .str s => s ≠ ""
  | .arr l => ¬ l.isEmpty
  | .obj fs => ¬ fs.isEmpty

/-- First binding of a key in an object's field list (JSON objects from the
API have unique keys, so first-match lookup is exact). -/
def Json.lookupField (j : Json) (k : String) : Option Json :=
  match j with
  | .obj fs => fs.lookup k
  | _ => none

/-- Python `d.get(k)`: `None` when the key is absent, `AttributeError`
(modelled as `.error ()`) when the receiver is not a dict. -/
def Json.dictGet (j : Json) (k : String) : Except Unit Json :=
  match j with
  | .obj fs => .ok ((fs.lookup k).getD .null)
  | _ => .error ()

/-- Python `d.get(k, default)` with an explicit default. -/
def Json.dictGetD (j : Json) (k : String) (d : Json) : Except Unit Json :=
  match j with
  | .obj fs => .ok ((fs.lookup k).getD d)
  | _ => .error ()

/-- Python `d[k]` on a string key: `KeyError` when absent, `TypeError`
when the receiver is not a dict (both modelled as `.error ()`). -/
def Json.subscript (j : Json) (k : String) : Except Unit Json :=
  match j with
  | .obj fs =>
    match fs.lookup k with
    | some v => .ok v
    | none => .error ()
  | _ => .error ()

/-- `j` is a JSON object. -/
def Json.isObj : Json → Bool
  | .obj _ => true
  | _ => false

/-- Field `k` of object `j` is either absent or itself an object — the
condition under which a Python chain `j.get(k, {}).get(_)` cannot raise. -/
def Json.fieldObjOrAbsent (j : Json) (k : String) : Bool :=
  match j with
  | .obj fs =>
    match fs.lookup k with
    | none => true
    | some (.obj _) => true
    | some _ => false
  | _ => false

/-! ## Flat row types

One structure per destination table; each field holds the raw Python value
placed into the row dict by the mapping step (possibly `None`). -/

/-- A flat tuple for `worldbank_countries` (`load_countries.py`, `main`). -/
structure CountryRow where
  country_id : Json
  iso2_code : Json
  country_name : Json
  region_id : Json
  region_name : Json
  income_level_id : Json
  income_level_name : Json
  capital_city : Json
  longitude : Json
  latitude : Json
  deriving Repr, DecidableEq

/-- A flat tuple for `worldbank_indicators` (`load_indicators.py`, `main`). -/
structure IndicatorRow where
  indicator_id : Json
  indicator_name : Json
  source_id : Json
  source_name : Json
  source_note : Json
  source_organization : Json
  topic_id : Json
  topic : Json
  deriving Repr, DecidableEq

/-- A flat tuple for `worldbank_values` (`load_values.py`, `main`). -/
structure ValueRow where
  country_id : Json
  country : Json
  indicator_id : Json
  indicator : Json
  year : Json
  value : Json
  deriving Repr, DecidableEq

/-! ## Record mapping (RecordMapper) -/

/-- `load_countries.py` lines 88–100: build one country row from one raw
record, via `country.get(...)` and `country.get('region', {}).get(...)`
chains.  Any step that would raise in Python yields `.error ()`. -/
def mapCountry (country : Json) : Except Unit CountryRow := do
  let cid ← country.dictGet "id"
  let iso2 ← country.dictGet "iso2Code"
  let name ← country.dictGet "name"
  let region ← country.dictGetD "region" (Json.obj [])
  let region_id ← region.dictGet "id"
  let region_name ← region.dictGet "value"
  let income ← country.dictGetD "incomeLevel" (Json.obj [])
  let income_id ← income.dictGet "id"
  let income_name ← income.dictGet "value"
  let capital ← country.dictGet "capitalCity"
  let lon ← country.dictGet "longitude"
  let lat ← country.dictGet "latitude"
  pure ⟨cid, iso2, name, region_id, region_name, income_id, income_name, capital, lon, lat⟩

/-- The `for country in data[1]` loop body applied to every record of a
page, failing as soon as one record raises. -/
def mapCountries : List Json → Except Unit (List CountryRow)
  | [] => .ok []
  | c :: cs => do
    let r ← mapCountry c
    let rs ← mapCountries cs
    pure (r :: rs)

/-- `load_indicators.py` lines 35–40, `get_topic_field`: return
`topics[0].get(field)` when `topics` is a non-empty list whose head is a
dict, else `None`; raises only when `indicator` itself is not a dict. -/
def get_topic_field (indicator : Json) (field : String) : Except Unit Json := do
  let topics ← indicator.dictGet "topics"
  match topics with
  | .arr (t :: _) =>
    match t with
    | .obj fs => pure ((fs.lookup field).getD .null)
    | _ => pure .null
  | _ => pure .null

/-- `load_indicators.py` lines 91–101: build one indicator row from one
raw record. -/
def mapIndicator (indicator : Json) : Except Unit IndicatorRow := do
  let iid ← indicator.dictGet "id"
  let name ← indicator.dictGet "name"
  let src ← indicator.dictGetD "source" (Json.obj [])
  let source_id ← src.dictGet "id"
  let source_name ← src.dictGet "value"
  let note ← indicator.dictGet "sourceNote"
  let org ← indicator.dictGet "sourceOrganization"
  let topic_id ← get_topic_field indicator "id"
  let topic ← get_topic_field indicator "value"
  pure ⟨iid, name, source_id, source_name, note, org, topic_id, topic⟩

/-- The per-page loop over indicator records. -/
def mapIndicators : List Json → Except Unit (List IndicatorRow)
  | [] => .ok []
  | c :: cs => do
    let r ← mapIndicator c
    let rs ← mapIndicators cs
    pure (r :: rs)

/-- `load_values.py` lines 114–123: `if item.get('value') is not None:`
append the row built by direct subscription (`item['countryiso3code']`,
`item['country']['value']`, …).  `none` means the record was skipped
because its value is null; direct subscription on an absent key raises. -/
def mapValueItem (item : Json) : Except Unit (Option ValueRow) := do
  let v ← item.dictGet "value"
  if v = Json.null then
    pure none
  else do
    let cid ← item.subscript "countryiso3code"
    let cobj ← item.subscript "country"
    let c ← cobj.subscript "value"
    let iobj ← item.subscript "indicator"
    let iid ← iobj.subscript "id"
    let ind ← iobj.subscript "value"
    let y ← item.subscript "date"
    pure (some ⟨cid, c, iid, ind, y, v⟩)

/-- The `for item in page_data` loop: accumulate the retained rows of one
page in arrival order. -/
def mapValuesPage : List Json → Except Unit (List ValueRow)
  | [] => .ok []
  | it :: rest => do
    let r? ← mapValueItem it
    let rs ← mapValuesPage rest
    match r? with
    | some r => pure (r :: rs)
    | none => pure rs

/-! ## Pagination (DatasetCollector) -/

/-- `page >= data[0].get('pages', 1)` as one step: the total-page value
read from the metadata dict, coerced to the rational that Python's `>=`
would compare against.  Absent key defaults to `1`; a non-dict metadata
raises `AttributeError`; a non-numeric `pages` value makes the later
`int >= pages` comparison raise `TypeError` (Python `bool` counts as
`0`/`1`). -/
def getPagesTotal (meta : Json) : Except Unit ℚ :=
  match meta with
  | .obj fs =>
    match fs.lookup "pages" with
    | none => .ok 1
    | some (.num q) => .ok q
    | some (.bool b) => .ok (if b then 1 else 0)
    | some _ => .error ()
  | _ => .error ()

/-- Outcome of a collection loop.  `fetches` counts the HTTP GET requests
actually issued.  `fuelOut` is a modelling artifact marking runs that see
more iterations than the given fuel (no terminating Python execution). -/
inductive CollectRes (ρ : Type) where
  | ok (rows : List ρ) (fetches : ℕ)
  | err (fetches : ℕ)
  | fuelOut
  deriving Repr, DecidableEq

/-- `load_countries.py` lines 75–106, the `while True` pagination loop.
Break conditions in source order: `not isinstance(data, list)`,
`len(data) < 2`, `not data[1]` all break (end of stream); then every
record of `data[1]` is mapped and appended; then the loop stops when
`page >= data[0].get('pages', 1)`, else the page counter increments.
A truthy non-list `data[1]` makes the mapping of its elements raise. -/
def collectCountriesAux (fetch : ℕ → Json) :
    ℕ → ℕ → List CountryRow → ℕ → CollectRes CountryRow
  | 0, _, _, _ => .fuelOut
  | fuel + 1, page, acc, cnt =>
    let data := fetch page
    match data with
    | .arr (meta :: recs :: _) =>
      if recs.truthy then
        match recs with
        | .arr items =>
          match mapCountries items with
          | .error _ => .err (cnt + 1)
          | .ok rs =>
            match getPagesTotal meta with
            | .error _ => .err (cnt + 1)
            | .ok q =>
              if (page : ℚ) ≥ q then .ok (acc ++ rs) (cnt + 1)
              else collectCountriesAux fetch fuel (page + 1) (acc ++ rs) (cnt + 1)
        | _ => .err (cnt + 1)
      else .ok acc (cnt + 1)
    | .arr _ => .ok acc (cnt + 1)
    | _ => .ok acc (cnt + 1)

/-- The countries collection started as the source does: `page = 1`,
empty accumulator. -/
def collectCountries (fetch : ℕ → Json) (fuel : ℕ) : CollectRes CountryRow :=
  collectCountriesAux fetch fuel 1 [] 0

/-- `load_indicators.py` lines 77–107: the indicator pagination loop has
exactly the shape of the countries loop, with the indicator mapping. -/
def collectIndicatorsAux (fetch : ℕ → Json) :
    ℕ → ℕ → List IndicatorRow → ℕ → CollectRes IndicatorRow
  | 0, _, _, _ => .fuelOut
  | fuel + 1, page, acc, cnt =>
    let data := fetch page
    match data with
    | .arr (meta :: recs :: _) =>
      if recs.truthy then
        match recs with
        | .arr items =>
          match mapIndicators items with
          | .error _ => .err (cnt + 1)
          | .ok rs =>
            match getPagesTotal meta with
            | .error _ => .err (cnt + 1)
            | .ok q =>
              if (page : ℚ) ≥ q then .ok (acc ++ rs) (cnt + 1)
              else collectIndicatorsAux fetch fuel (page + 1) (acc ++ rs) (cnt + 1)
        | _ => .err (cnt + 1)
      else .ok acc (cnt + 1)
    | .arr _ => .ok acc (cnt + 1)
    | _ => .ok acc (cnt + 1)

/-- The indicators collection started at page 1 with empty accumulator. -/
def collectIndicators (fetch : ℕ → Json) (fuel : ℕ) : CollectRes IndicatorRow :=
  collectIndicatorsAux fetch fuel 1 [] 0

/-- `load_values.py` lines 86–131, the inner `while True` loop of one
indicator.  Source order: `if not data or len(data) < 2: break`; then
`total_pages = data[0].get('pages', 1)` (raises on non-dict metadata);
then `if not data[1]: break`; then every item of the page is filtered and
mapped; then `if page >= total_pages: break`, else increment and pace.
A truthy `data` that is not a list raises at `len(data)` or `data[0]`. -/
def collectValuesAux (fetch : ℕ → Json) :
    ℕ → ℕ → List ValueRow → ℕ → CollectRes ValueRow
  | 0, _, _, _ => .fuelOut
  | fuel + 1, page, acc, cnt =>
    let data := fetch page
    if data.truthy then
      match data with
      | .arr (meta :: recs :: _) =>
        match getPagesTotal meta with
        | .error _ => .err (cnt + 1)
        | .ok q =>
          if recs.truthy then
            match recs with
            | .arr items =>
              match mapValuesPage items with
              | .error _ => .err (cnt + 1)
              | .ok rs =>
                if (page : ℚ) ≥ q then .ok (acc ++ rs) (cnt + 1)
                else collectValuesAux fetch fuel (page + 1) (acc ++ rs) (cnt + 1)
            | _ => .err (cnt + 1)
          else .ok acc (cnt + 1)
      | .arr _ => .ok acc (cnt + 1)
      | .obj fs => if fs.length < 2 then .ok acc (cnt + 1) else .err (cnt + 1)
      | .str s => if s.length < 2 then .ok acc (cnt + 1) else .err (cnt + 1)
      | _ => .err (cnt + 1)
    else .ok acc (cnt + 1)

/-- `load_values.py` lines 75–77: the fixed, hardcoded list of indicator
codes the outer loop walks. -/
def indicators : List String :=
  ["NY.GDP.MKTP.CD", "NY.GDP.PCAP.CD", "SP.POP.TOTL", "SP.URB.TOTL.IN.ZS",
   "SE.XPD.TOTL.GD.ZS", "IP.JRN.ARTC.SC", "SH.XPD.CHEX.GD.ZS", "SH.DYN.MORT",
   "IT.NET.USER.ZS", "EG.ELC.ACCS.ZS", "EG.USE.PCAP.KG.OE"]

/-- `load_values.py` lines 82–133: the outer `for indicator in indicators`
loop.  `all_data` is shared across indicators; a raising fetch iteration
aborts the whole collection (the `try` wraps the outer loop). -/
def collectValuesAll (fetch : String → ℕ → Json) (fuel : ℕ) :
    List String → List ValueRow → ℕ → CollectRes ValueRow
  | [], acc, cnt => .ok acc cnt
  | ind :: rest, acc, cnt =>
    match collectValuesAux (fetch ind) fuel 1 acc cnt with
    | .ok acc' cnt' => collectValuesAll fetch fuel rest acc' cnt'
    | .err c => .err c
    | .fuelOut => .fuelOut

/-- The observation collection exactly as `main` starts it. -/
def collectValues (fetch : String → ℕ → Json) (fuel : ℕ) : CollectRes ValueRow :=
  collectValuesAll fetch fuel indicators [] 0

/-! ## Transformation -/

/-- `load_countries.py` line 121:
`df[df['region_name'] != 'Aggregates']` — keep the rows whose
`region_name` is not the string `"Aggregates"` (a null or non-string
field compares unequal to a string, so such rows are kept). -/
def filterAggregates (rows : List CountryRow) : List CountryRow :=
  rows.filter (fun r => decide (r.region_name ≠ Json.str "Aggregates"))

/-- Numeric value of a non-empty all-digit character run. -/
def digitsToNat : List Char → Option ℕ
  | [] => none
  | cs => go cs 0
where
  go : List Char → ℕ → Option ℕ
    | [], acc => some acc
    | c :: rest, acc =>
      if c.isDigit then go rest (acc * 10 + (c.toNat - 48)) else none

/-- Fractional part `.d₁…dₖ` as a rational. -/
def fracToRat (cs : List Char) : Option ℚ :=
  (digitsToNat cs).map (fun n => (n : ℚ) / ((10 : ℚ) ^ cs.length))

/-- Modelled from the spec: the decimal-string grammar that the external
numeric coercion (`pd.to_numeric`) accepts — optional sign, then digits
with an optional fractional part (`"12"`, `"12.5"`, `".5"`, `"-7."`). -/
def parseDecimal (s : String) : Option ℚ :=
  match s.toList with
  | '-' :: cs => (parseUnsigned cs).map (fun q => -q)
  | '+' :: cs => parseUnsigned cs
  | cs => parseUnsigned cs
where
  parseUnsigned (cs : List Char) : Option ℚ :=
    match cs.splitOn '.' with
    | [as] => (digitsToNat as).map (fun n => (n : ℚ))
    | [[], []] => none
    | [[], bs] => fracToRat bs
    | [as, []] => (digitsToNat as).map (fun n => (n : ℚ))
    | [as, bs] => do
      let i ← digitsToNat as
      let f ← fracToRat bs
      pure ((i : ℚ) + f)
    | _ => none

/-- Modelled from the spec: `pd.to_numeric(x, errors='coerce')` on one
cell of the longitude/latitude column (pandas is an excluded external
collaborator) — numbers pass through, bools become 0/1, parsable strings
become their number, everything else becomes null, and no input raises. -/
def to_numeric_coerce (j : Json) : Json :=
  match j with
  | .num q => .num q
  | .bool b => .num (if b then 1 else 0)
  | .str s =>
    match parseDecimal s with
    | some q => .num q
    | none => .null
  | _ => .null

/-- `load_countries.py` lines 130–131: coerce the `longitude` and
`latitude` columns of one row, leaving every other field unchanged. -/
def coerceLatLong (r : CountryRow) : CountryRow :=
  { r with longitude := to_numeric_coerce r.longitude,
           latitude := to_numeric_coerce r.latitude }

/-- The whole-column coercion over the filtered frame. -/
def coerceLatLongAll (rows : List CountryRow) : List CountryRow :=
  rows.map coerceLatLong

/-- Walk of `df.drop_duplicates(subset='indicator_id')` (keep `'first'`,
order preserving): `seen` holds the key values already emitted. -/
def dropDupAux (seen : List Json) : List IndicatorRow → List IndicatorRow
  | [] => []
  | r :: rs =>
    if r.indicator_id ∈ seen then dropDupAux seen rs
    else r :: dropDupAux (r.indicator_id :: seen) rs

/-- `load_indicators.py` line 123: `df.drop_duplicates(subset='indicator_id')`. -/
def drop_duplicates_by_indicator_id (rows : List IndicatorRow) : List IndicatorRow :=
  dropDupAux [] rows

/-- Modelled from the spec: Python `int(x)` as invoked by the external
`astype('int64')` cast — optional sign then digits for a string, rejected
otherwise-shaped strings raise `ValueError` (`.error ()`). -/
def parsePyInt (s : String) : Option ℤ :=
  match s.toList with
  | '-' :: cs => (digitsToNat cs).map (fun n => -(n : ℤ))
  | '+' :: cs => (digitsToNat cs).map (fun n => (n : ℤ))
  | cs => (digitsToNat cs).map (fun n => (n : ℤ))

/-- One cell of the `year` column under `astype('int64')`: numbers
truncate toward zero, strings must parse as integers, anything else
(null included) raises. -/
def pyIntOf (j : Json) : Except Unit ℤ :=
  match j with
  | .num q => .ok (Int.tdiv q.num (q.den : ℤ))
  | .bool b => .ok (if b then 1 else 0)
  | .str s =>
    match parsePyInt s with
    | some n => .ok n
    | none => .error ()
  | _ => .error ()

/-- `load_values.py` line 149 applied to one row:
`df['year'] = df['year'].astype('int64')` replaces the year with its
integer value and keeps every other field. -/
def astypeYear (r : ValueRow) : Except Unit ValueRow := do
  let y ← pyIntOf r.year
  pure { r with year := Json.num (y : ℚ) }

/-- The year cast over the whole frame; the first unparsable cell raises
(and the raise is uncaught in `main`). -/
def astypeYears : List ValueRow → Except Unit (List ValueRow)
  | [] => .ok []
  | r :: rs => do
    let r' ← astypeYear r
    let rs' ← astypeYears rs
    pure (r' :: rs')

/-! ## Table loading (TableLoader)

The store state for one destination table is `Option (List ρ)` — `none`
when the table does not exist, `some rows` its contents. -/

/-- The two DDL statements issued inside the schema-replacement
transaction. -/
inductive TableStmt where
  | dropIfExists : TableStmt
  | createEmpty : TableStmt
  deriving Repr, DecidableEq

/-- Effect of one statement on the working state; the paired flag tells
whether the database executes it successfully. -/
def execStmt {ρ : Type} (ok : Bool) (st : Option (List ρ)) :
    TableStmt → Except Unit (Option (List ρ))
  | .dropIfExists => if ok then .ok none else .error ()
  | .createEmpty =>
    if ok then
      match st with
      | none => .ok (some [])
      | some _ => .error ()
    else .error ()

/-- Run the statements of one transaction over a working state. -/
def runTxnAux {ρ : Type} :
    Option (List ρ) → List (TableStmt × Bool) → Except Unit (Option (List ρ))
  | st, [] => .ok st
  | st, (s, ok) :: rest =>
    match execStmt ok st s with
    | .error _ => .error ()
    | .ok st' => runTxnAux st' rest

/-- Modelled from the SQLAlchemy contract of `with engine.begin()` (the
store driver is an excluded external collaborator): the block's
statements run against a working copy, the result commits on normal
exit, and an exception rolls the store back to the entry state and
re-raises. -/
def runTxn {ρ : Type} (committed : Option (List ρ))
    (stmts : List (TableStmt × Bool)) : Bool × Option (List ρ) :=
  match runTxnAux committed stmts with
  | .ok st => (true, st)
  | .error _ => (false, committed)

/-- `load_countries.py` lines 26–35, `create_countries_table`: drop the
table if present then create it fresh, inside one `engine.begin()`
transaction; the caught exception makes the function return `False`. -/
def create_countries_table (st : Option (List CountryRow)) (dropOk createOk : Bool) :
    Bool × Option (List CountryRow) :=
  runTxn st [(.dropIfExists, dropOk), (.createEmpty, createOk)]

/-- `load_values.py` lines 22–31, `create_values_table`: same shape. -/
def create_values_table (st : Option (List ValueRow)) (dropOk createOk : Bool) :
    Bool × Option (List ValueRow) :=
  runTxn st [(.dropIfExists, dropOk), (.createEmpty, createOk)]

/-- `load_indicators.py` lines 24–33, `create_indicators_table`: same
shape. -/
def create_indicators_table (st : Option (List IndicatorRow)) (dropOk createOk : Bool) :
    Bool × Option (List IndicatorRow) :=
  runTxn st [(.dropIfExists, dropOk), (.createEmpty, createOk)]

/-- `df.to_sql(..., if_exists='append')`: append the frame's rows to the
existing table. -/
def appendRows {ρ : Type} (st : Option (List ρ)) (rows : List ρ) : Option (List ρ) :=
  st.map (fun l => l ++ rows)

/-! ## Orchestrators (the `main` functions)

The environment bundles everything `main` consumes from outside:
configuration validity, store liveness, the fetch oracle, and whether
each database step the script issues succeeds.  `fuel` bounds the number
of loop iterations the model can unfold (a run needing more never
terminates in Python either, and is reported as `none`). -/

/-- External circumstances of one `load_countries.py` run. -/
structure CountriesEnv where
  missingVars : Bool
  connectOk : Bool
  fetch : ℕ → Json
  fuel : ℕ
  dropOk : Bool
  createOk : Bool
  insertOk : Bool
  verifyOk : Bool

/-- External circumstances of one `load_values.py` run. -/
structure ValuesEnv where
  missingVars : Bool
  connectOk : Bool
  fetch : String → ℕ → Json
  fuel : ℕ
  dropOk : Bool
  createOk : Bool
  insertOk : Bool
  verifyOk : Bool

/-- What one terminating run left behind: whether `engine.dispose()` ran,
the destination table's final state, whether the empty-result message was
printed, and whether the run ended in an uncaught traceback. -/
structure RunOutcome (ρ : Type) where
  disposed : Bool
  table : Option (List ρ)
  reportedEmpty : Bool
  crashed : Bool
  deriving Repr, DecidableEq

/-- `load_countries.py` lines 37–169, `main`: env-var check, connection
probe, pagination loop (`try`/`except` that returns on error), the
`if not all_countries: return` guard, the aggregate filter, the
longitude/latitude coercion, then `try: create/insert/verify`
`except: print` `finally: engine.dispose()`.  A failed verification is
caught by the same `except` and changes nothing observable here.  `init`
is the pre-run state of `worldbank_countries`. -/
def runCountriesMain (env : CountriesEnv) (init : Option (List CountryRow)) :
    Option (RunOutcome CountryRow) :=
  if env.missingVars then some ⟨false, init, false, false⟩
  else if ¬ env.connectOk then some ⟨false, init, false, false⟩
  else
    match collectCountries env.fetch env.fuel with
    | .fuelOut => none
    | .err _ => some ⟨false, init, false, false⟩
    | .ok rows _ =>
      if rows.isEmpty then some ⟨false, init, true, false⟩
      else
        let rowsT := coerceLatLongAll (filterAggregates rows)
        match create_countries_table init env.dropOk env.createOk with
        | (false, st) => some ⟨true, st, false, false⟩
        | (true, st) =>
          if env.insertOk then some ⟨true, appendRows st rowsT, false, false⟩
          else some ⟨true, st, false, false⟩

/-- `load_values.py` lines 33–186, `main`: same stages, except that the
year cast `df['year'].astype('int64')` sits between the empty-result
guard and the `try`/`finally` block, outside every `try` — an unparsable
date therefore ends the run in an uncaught traceback (`crashed`),
before the table is touched and before any `dispose`. -/
def runValuesMain (env : ValuesEnv) (init : Option (List ValueRow)) :
    Option (RunOutcome ValueRow) :=
  if env.missingVars then some ⟨false, init, false, false⟩
  else if ¬ env.connectOk then some ⟨false, init, false, false⟩
  else
    match collectValues env.fetch env.fuel with
    | .fuelOut => none
    | .err _ => some ⟨false, init, false, false⟩
    | .ok rows _ =>
      if rows.isEmpty then some ⟨false, init, true, false⟩
      else
        match astypeYears rows with
        | .error _ => some ⟨false, init, false, true⟩
        | .ok rowsT =>
          match create_values_table init env.dropOk env.createOk with
          | (false, st) => some ⟨true, st, false, false⟩
          | (true, st) =>
            if env.insertOk then some ⟨true, appendRows st rowsT, false, false⟩
            else some ⟨true, st, false, false⟩

/-! ## Sample data used by witnesses and counterexamples -/

/-- The row an entirely empty raw record maps to. -/
def nullCountryRow : CountryRow :=
  ⟨.null, .null, .null, .null, .null, .null, .null, .null, .null, .null⟩

/-- The row an entirely empty raw indicator maps to. -/
def nullIndicatorRow : IndicatorRow :=
  ⟨.null, .null, .null, .null, .null, .null, .null, .null⟩

/-- An aggregate entity row (the spec's round-trip USA example). -/
def sampleAgg : CountryRow :=
  { nullCountryRow with
      country_id := .str "USA", country_name := .str "United States",
      region_name := .str "Aggregates" }

/-- A real entity row (the spec's round-trip FRA example). -/
def sampleFra : CountryRow :=
  { nullCountryRow with
      country_id := .str "FRA", country_name := .str "France",
      region_name := .str "Europe & Central Asia",
      longitude := .str "2.35", latitude := .str "not-a-number" }

/-- A raw observation record with value 5 for France's GDP in 2023. -/
def dupItem : Json :=
  .obj [("value", .num 5), ("countryiso3code", .str "FRA"),
        ("country", .obj [("value", .str "France")]),
        ("indicator", .obj [("id", .str "NY.GDP.MKTP.CD"),
                            ("value", .str "GDP (current US$)")]),
        ("date", .str "2023")]

/-- A raw observation record whose upstream value is null. -/
def nullItem : Json :=
  .obj [("value", .null), ("countryiso3code", .str "FRA")]

/-- The flat row `dupItem` maps to. -/
def dupRow : ValueRow :=
  ⟨.str "FRA", .str "France", .str "NY.GDP.MKTP.CD",
   .str "GDP (current US$)", .str "2023", .num 5⟩

/-- The mapped output of the page `[dupItem, dupItem, nullItem]`: both
identical retained records appear, the null-valued one does not. -/
def dupRows : List ValueRow := [dupRow, dupRow]

/-- `dupRow` after the year cast. -/
def dupRowCast : ValueRow :=
  { dupRow with year := Json.num (((2023 : ℕ) : ℤ) : ℚ) }

/-- An observation row whose date is not integer-parsable. -/
def badYearRow : ValueRow :=
  { dupRow with year := Json.str "not-a-year" }

/-- A raw observation record carrying the unparsable date. -/
def crashItem : Json :=
  .obj [("value", .num 5), ("countryiso3code", .str "FRA"),
        ("country", .obj [("value", .str "France")]),
        ("indicator", .obj [("id", .str "NY.GDP.MKTP.CD"),
                            ("value", .str "GDP (current US$)")]),
        ("date", .str "not-a-year")]

/-- A single-page API response holding only `crashItem`. -/
def crashPage : Json :=
  .arr [.obj [("pages", .num 1)], .arr [crashItem]]

/-- A `load_values.py` run whose collection succeeds but whose year cast
must raise: configuration and store are fine, every page is `crashPage`. -/
def crashEnv : ValuesEnv :=
  { missingVars := false, connectOk := true, fetch := fun _ _ => crashPage,
    fuel := 2, dropOk := true, createOk := true, insertOk := true, verifyOk := true }

/-- A countries run whose first page already signals end of stream. -/
def emptyEnvC : CountriesEnv :=
  { missingVars := false, connectOk := true, fetch := fun _ => Json.null,
    fuel := 1, dropOk := true, createOk := true, insertOk := true, verifyOk := true }

/-- A values run whose every page signals end of stream. -/
def emptyEnvV : ValuesEnv :=
  { missingVars := false, connectOk := true, fetch := fun _ _ => Json.null,
    fuel := 1, dropOk := true, createOk := true, insertOk := true, verifyOk := true }

/-- A countries run with a healthy connection whose collection raises
(`data[1]` holds a non-dict record). -/
def fetchErrEnvC : CountriesEnv :=
  { emptyEnvC with fetch := fun _ => Json.arr [Json.null, Json.arr [Json.null]] }

/-- A values run with a healthy connection whose fetch returns a truthy
non-sized value, so `len(data)` raises. -/
def fetchErrEnvV : ValuesEnv :=
  { emptyEnvV with fetch := fun _ _ => Json.bool true }

/-- A fully healthy one-page countries run: one empty-dict record,
`pages = 1`. -/
def goodEnvC : CountriesEnv :=
  { emptyEnvC with
      fetch := fun _ => Json.arr [Json.obj [("pages", Json.num 1)],
                                  Json.arr [Json.obj []]] }

/-- A well-formed countries page for total-page count `p`: a list
response whose metadata reports `pages = p` and whose second element is
a non-empty record list, every record mapping cleanly. -/
def wfCountryPage (p : ℕ) (j : Json) : Prop :=
  ∃ meta items rest rows,
    j = Json.arr (meta :: Json.arr items :: rest) ∧
    items ≠ [] ∧
    mapCountries items = .ok rows ∧
    getPagesTotal meta = .ok (p : ℚ)

/-- A well-formed observations page for total-page count `p`. -/
def wfValuesPage (p : ℕ) (j : Json) : Prop :=
  ∃ meta items rest rows,
    j = Json.arr (meta :: Json.arr items :: rest) ∧
    items ≠ [] ∧
    mapValuesPage items = .ok rows ∧
    getPagesTotal meta = .ok (p : ℚ)

/-- A fetch whose every response is non-empty yet reports `pages = 0`. -/
def zeroPagesFetch : ℕ → Json :=
  fun _ => Json.arr [Json.obj [("pages", Json.num 0)], Json.arr [Json.obj []]]

/-- A fetch whose every response holds one record and reports
`pages = 2`. -/
def constTwoFetch : ℕ → Json :=
  fun _ => Json.arr [Json.obj [("pages", Json.num 2)], Json.arr [Json.obj []]]

/-- An observations fetch whose every response holds one null-valued
record and reports `pages = 2`. -/
def constTwoFetchV : ℕ → Json :=
  fun _ => Json.arr [Json.obj [("pages", Json.num 2)], Json.arr [nullItem]]

/-- A fetch whose single page carries records but no `pages` key. -/
def constNoPagesFetch : ℕ → Json :=
  fun _ => Json.arr [Json.obj [], Json.arr [Json.obj []]]

/-- First-arriving metric record with identifier `"X"`. -/
def dupIndFirst : IndicatorRow :=
  { nullIndicatorRow with indicator_id := .str "X", indicator_name := .str "first" }

/-- Later metric record with the same identifier `"X"`. -/
def dupIndSecond : IndicatorRow :=
  { nullIndicatorRow with indicator_id := .str "X", indicator_name := .str "second" }

/-! ## C5 — atomic schema replacement -/

/-- C5: each of the three `create_*_table` functions replaces the schema
as one atomic unit: every execution either commits both the drop and the
create (returning `True` with a fresh empty table) or commits neither
(returning `False` with the store exactly as it was) — no outcome has
the table dropped but not recreated. -/
theorem schema_replace_atomic :
    (∀ (st : Option (List CountryRow)) (d c : Bool),
        create_countries_table st d c = (true, some []) ∨
        create_countries_table st d c = (false, st))
  ∧ (∀ (st : Option (List ValueRow)) (d c : Bool),
        create_values_table st d c = (true, some []) ∨
        create_values_table st d c = (false, st))
  ∧ (∀ (st : Option (List IndicatorRow)) (d c : Bool),
        create_indicators_table st d c = (true, some []) ∨
        create_indicators_table st d c = (false, st)) := by
  refine ⟨?_, ?_, ?_⟩ <;> intro st d c <;> cases d <;> cases c <;>
    simp [create_countries_table, create_values_table, create_indicators_table,
          runTxn, runTxnAux, execStmt]

/-! ## C8 — aggregate rows are filtered out -/

/-- C8: the entity transformation keeps exactly the accumulated rows whose
`region_name` differs from `"Aggregates"`: no surviving row has it equal,
every surviving row came from the input, every non-aggregate input row
survives, and the output is a sublist (order- and
multiplicity-preserving) of the input. -/
theorem filterAggregates_spec (rows : List CountryRow) :
    (∀ r ∈ filterAggregates rows, r.region_name ≠ Json.str "Aggregates")
  ∧ (∀ r ∈ filterAggregates rows, r ∈ rows)
  ∧ (∀ r ∈ rows, r.region_name ≠ Json.str "Aggregates" → r ∈ filterAggregates rows)
  ∧ (filterAggregates rows).Sublist rows := by
  refine ⟨?_, ?_, ?_, ?_⟩
  · intro r hr
    have := List.of_mem_filter hr
    simpa using this
  · intro r hr; exact List.mem_of_mem_filter hr
  · intro r hr hne
    exact List.mem_filter.mpr ⟨hr, by simpa using hne⟩
  · exact List.filter_sublist rows

/-- Witness for C8 on the spec's round-trip pair: the FRA row survives the
filter over `[USA-aggregate, FRA]` and its region is not `"Aggregates"`. -/
theorem filterAggregates_spec_witness :
    sampleFra ∈ filterAggregates [sampleAgg, sampleFra] ∧
    sampleFra.region_name ≠ Json.str "Aggregates" :=
  ⟨(filterAggregates_spec [sampleAgg, sampleFra]).2.2.1 sampleFra (by decide) (by decide),
   (filterAggregates_spec [sampleAgg, sampleFra]).1 sampleFra (by decide)⟩

/-! ## C9 — longitude/latitude coercion -/

/-- C9: the numeric coercion of the entity transformation never drops a
row and never raises — it maps each row to the same row with only
`longitude` and `latitude` replaced by their coerced value — and the
cell coercion sends an unparsable string to null while keeping the value
of a parsable one. -/
theorem coerce_latlong_spec :
    (∀ rows : List CountryRow, (coerceLatLongAll rows).length = rows.length)
  ∧ (∀ rows : List CountryRow, coerceLatLongAll rows = rows.map coerceLatLong)
  ∧ (∀ r : CountryRow,
       (coerceLatLong r).longitude = to_numeric_coerce r.longitude ∧
       (coerceLatLong r).latitude = to_numeric_coerce r.latitude ∧
       (coerceLatLong r).country_id = r.country_id ∧
       (coerceLatLong r).iso2_code = r.iso2_code ∧
       (coerceLatLong r).country_name = r.country_name ∧
       (coerceLatLong r).region_id = r.region_id ∧
       (coerceLatLong r).region_name = r.region_name ∧
       (coerceLatLong r).income_level_id = r.income_level_id ∧
       (coerceLatLong r).income_level_name = r.income_level_name ∧
       (coerceLatLong r).capital_city = r.capital_city)
  ∧ (∀ s : String, parseDecimal s = none → to_numeric_coerce (Json.str s) = Json.null)
  ∧ (∀ (s : String) (q : ℚ), parseDecimal s = some q →
       to_numeric_coerce (Json.str s) = Json.num q)
  ∧ (∀ q : ℚ, to_numeric_coerce (Json.num q) = Json.num q) := by
  refine ⟨fun rows => by simp [coerceLatLongAll], fun rows => rfl,
          fun r => ⟨rfl, rfl, rfl, rfl, rfl, rfl, rfl, rfl, rfl, rfl⟩,
          ?_, ?_, fun q => rfl⟩
  · intro s h; simp [to_numeric_coerce, h]
  · intro s q h; simp [to_numeric_coerce, h]

/-- Witness for C9: `"not-a-number"` coerces to null, `"-73"` to the
number −73, and the FRA sample row is kept, not dropped. -/
theorem coerce_latlong_spec_witness :
    to_numeric_coerce (Json.str "not-a-number") = Json.null ∧
    to_numeric_coerce (Json.str "-73") = Json.num (-73) ∧
    (coerceLatLongAll [sampleFra]).length = 1 :=
  ⟨coerce_latlong_spec.2.2.2.1 "not-a-number" (by decide),
   coerce_latlong_spec.2.2.2.2.1 "-73" (-73) (by decide),
   coerce_latlong_spec.1 [sampleFra]⟩

/-! ## C7 — observation rows: non-null values, no deduplication -/

/-- Exhaustive outcomes of mapping one raw observation record: an
exception, a skip (null upstream value), or one row whose `value` field
is the non-null upstream value. -/
lemma mapValueItem_cases (it : Json) :
    mapValueItem it = .error () ∨ mapValueItem it = .ok none ∨
    ∃ r, mapValueItem it = .ok (some r) ∧ r.value ≠ Json.null := by
  unfold mapValueItem
  cases h0 : it.dictGet "value" with
  | error e => cases e; simp [Bind.bind, Except.bind, h0]
  | ok v =>
    simp only [Bind.bind, Except.bind, h0]
    by_cases hv : v = Json.null
    · simp [hv, pure, Except.pure]
    · simp only [hv, if_false]
      cases h1 : it.subscript "countryiso3code" with
      | error e => cases e; simp [h1]
      | ok cid =>
        simp only [h1]
        cases h2 : it.subscript "country" with
        | error e => cases e; simp [h2]
        | ok cobj =>
          simp only [h2]
          cases h3 : cobj.subscript "value" with
          | error e => cases e; simp [h3]
          | ok c =>
            simp only [h3]
            cases h4 : it.subscript "indicator" with
            | error e => cases e; simp [h4]
            | ok iobj =>
              simp only [h4]
              cases h5 : iobj.subscript "id" with
              | error e => cases e; simp [h5]
              | ok iid =>
                simp only [h5]
                cases h6 : iobj.subscript "value" with
                | error e => cases e; simp [h6]
                | ok ind =>
                  simp only [h6]
                  cases h7 : it.subscript "date" with
                  | error e => cases e; simp [h7]
                  | ok y =>
                    simp only [h7]
                    exact .inr (.inr ⟨⟨cid, c, iid, ind, y, v⟩, rfl, hv⟩)

/-- C7: whenever a page of raw observation records maps without raising,
every emitted row has a non-null `value`, and the emitted list is exactly
the arrival-ordered image of the retained records — one output row per
retained input record, no deduplication, so two identical retained
records yield two rows. -/
theorem values_nonnull_nodedup :
    ∀ (items : List Json) (rows : List ValueRow),
      mapValuesPage items = .ok rows →
      (∀ r ∈ rows, r.value ≠ Json.null) ∧
      rows = items.filterMap (fun it => (mapValueItem it).toOption.join) := by
  intro items
  induction items with
  | nil =>
    intro rows h
    simp only [mapValuesPage] at h
    cases h
    simp
  | cons it rest ih =>
    intro rows h
    simp only [mapValuesPage, Bind.bind, Except.bind] at h
    cases h1 : mapValueItem it with
    | error e => rw [h1] at h; cases h
    | ok r? =>
      rw [h1] at h
      cases h2 : mapValuesPage rest with
      | error e => rw [h2] at h; cases h
      | ok rs =>
        rw [h2] at h
        obtain ⟨hmem, heq⟩ := ih rs h2
        cases r? with
        | none =>
          cases h
          have hf : (mapValueItem it).toOption.join = none := by rw [h1]; rfl
          refine ⟨hmem, ?_⟩
          simp only [List.filterMap_cons, hf]
          exact heq
        | some r =>
          cases h
          have hf : (mapValueItem it).toOption.join = some r := by rw [h1]; rfl
          have hval : r.value ≠ Json.null := by
            rcases mapValueItem_cases it with hc | hc | ⟨r', hc, hv⟩
            · rw [h1] at hc; cases hc
            · rw [h1] at hc; cases hc
            · rw [h1] at hc
              cases hc
              exact hv
          refine ⟨?_, ?_⟩
          · intro x hx
            rcases List.mem_cons.mp hx with rfl | hx
            · exact hval
            · exact hmem x hx
          · simp only [List.filterMap_cons, hf]
            exact congrArg (List.cons r) heq

/-- Witness for C7: a two-record page whose records are identical (same
entity, metric and year, value 5) maps to two rows — both kept — and a
null-valued record is dropped. -/
theorem values_nonnull_nodedup_witness :
    (∀ r ∈ dupRows, r.value ≠ Json.null) ∧
    dupRows = [dupItem, dupItem, nullItem].filterMap
      (fun it => (mapValueItem it).toOption.join) :=
  values_nonnull_nodedup [dupItem, dupItem, nullItem] dupRows rfl

/-! ## C6 — metric deduplication -/

/-- Every row emitted by the dedup walk has a key outside `seen` and is
the first input row bearing its key. -/
lemma dropDupAux_mem_spec :
    ∀ (rows : List IndicatorRow) (seen : List Json) (r : IndicatorRow),
      r ∈ dropDupAux seen rows →
      r.indicator_id ∉ seen ∧
      rows.find? (fun x => decide (x.indicator_id = r.indicator_id)) = some r := by
  intro rows
  induction rows with
  | nil => intro seen r hr; simp [dropDupAux] at hr
  | cons a rows ih =>
    intro seen r hr
    by_cases ha : a.indicator_id ∈ seen
    · rw [dropDupAux, if_pos ha] at hr
      obtain ⟨hnin, hfind⟩ := ih seen r hr
      have hne : ¬ (a.indicator_id = r.indicator_id) := by
        intro he; exact hnin (he ▸ ha)
      refine ⟨hnin, ?_⟩
      rw [List.find?_cons_of_neg _ (by simpa using hne)]
      exact hfind
    · rw [dropDupAux, if_neg ha] at hr
      rcases List.mem_cons.mp hr with rfl | hr
      · exact ⟨ha, by simp [List.find?_cons_of_pos]⟩
      · obtain ⟨hnin, hfind⟩ := ih (a.indicator_id :: seen) r hr
        have hne : ¬ (a.indicator_id = r.indicator_id) := by
          intro he; exact hnin (by simp [he])
        refine ⟨fun hmem => hnin (List.mem_cons_of_mem _ hmem), ?_⟩
        rw [List.find?_cons_of_neg _ (by simpa using hne)]
        exact hfind

/-- The dedup walk never emits two rows with the same key. -/
lemma dropDupAux_pairwise :
    ∀ (rows : List IndicatorRow) (seen : List Json),
      (dropDupAux seen rows).Pairwise
        (fun a b => a.indicator_id ≠ b.indicator_id) := by
  intro rows
  induction rows with
  | nil => intro seen; simp [dropDupAux]
  | cons a rows ih =>
    intro seen
    by_cases ha : a.indicator_id ∈ seen
    · rw [dropDupAux, if_pos ha]; exact ih seen
    · rw [dropDupAux, if_neg ha]
      refine List.Pairwise.cons ?_ (ih (a.indicator_id :: seen))
      intro b hb hen
      have := (dropDupAux_mem_spec rows (a.indicator_id :: seen) b hb).1
      exact this (by simp [← hen])

/-- Every input key with no earlier occurrence in `seen` is represented
in the dedup walk's output. -/
lemma dropDupAux_covers :
    ∀ (rows : List IndicatorRow) (seen : List Json) (r : IndicatorRow),
      r ∈ rows → r.indicator_id ∉ seen →
      ∃ r' ∈ dropDupAux seen rows, r'.indicator_id = r.indicator_id := by
  intro rows
  induction rows with
  | nil => intro seen r hr; simp at hr
  | cons a rows ih =>
    intro seen r hr hnin
    by_cases ha : a.indicator_id ∈ seen
    · rw [dropDupAux, if_pos ha]
      rcases List.mem_cons.mp hr with rfl | hr
      · exact absurd ha hnin
      · exact ih seen r hr hnin
    · rw [dropDupAux, if_neg ha]
      rcases List.mem_cons.mp hr with rfl | hr
      · exact ⟨r, List.mem_cons_self r _, rfl⟩
      · by_cases hsame : r.indicator_id = a.indicator_id
        · exact ⟨a, List.mem_cons_self a _, hsame.symm⟩
        · have hnin' : r.indicator_id ∉ a.indicator_id :: seen := by
            intro hmem
            rcases List.mem_cons.mp hmem with he | he
            · exact hsame he
            · exact hnin he
          obtain ⟨r', hr', he'⟩ := ih (a.indicator_id :: seen) r hr hnin'
          exact ⟨r', List.mem_cons_of_mem _ hr', he'⟩

/-- C6: after `drop_duplicates(subset='indicator_id')` the emitted
`indicator_id` values are pairwise distinct; every output row is the
first-encountered input row with its identifier (so when two inputs
share an identifier the earlier one's fields are kept); and every input
identifier is still represented in the output. -/
theorem dedup_spec (rows : List IndicatorRow) :
    (drop_duplicates_by_indicator_id rows).Pairwise
      (fun a b => a.indicator_id ≠ b.indicator_id)
  ∧ (∀ r ∈ drop_duplicates_by_indicator_id rows,
       rows.find? (fun x => decide (x.indicator_id = r.indicator_id)) = some r)
  ∧ (∀ r ∈ rows, ∃ r' ∈ drop_duplicates_by_indicator_id rows,
       r'.indicator_id = r.indicator_id) :=
  ⟨dropDupAux_pairwise rows [],
   fun r hr => (dropDupAux_mem_spec rows [] r hr).2,
   fun r hr => dropDupAux_covers rows [] r hr (by simp)⟩

/-- Witness for C6 on a concrete duplicate pair: with two input records
sharing identifier `"X"`, the first one (named `"first"`) is the row kept
for that identifier. -/
theorem dedup_spec_witness :
    [dupIndFirst, dupIndSecond].find?
      (fun x => decide (x.indicator_id = dupIndFirst.indicator_id)) = some dupIndFirst :=
  (dedup_spec [dupIndFirst, dupIndSecond]).2.1 dupIndFirst (by decide)

/-! ## C1 — record mapping and absent fields -/

/-- Under `fieldObjOrAbsent`, the `j.get(k, {})` sub-object is a dict. -/
lemma fieldObjOrAbsent_getD {fs : List (String × Json)} {k : String}
    (h : (Json.obj fs).fieldObjOrAbsent k = true) :
    ∃ gs, (fs.lookup k).getD (Json.obj []) = Json.obj gs := by
  cases hk : fs.lookup k with
  | none => exact ⟨[], rfl⟩
  | some v =>
    cases v
    case obj gs => exact ⟨gs, rfl⟩
    all_goals simp [Json.fieldObjOrAbsent, hk] at h

/-- `get_topic_field` returns (never raises) on any dict record. -/
lemma get_topic_field_ok (fs : List (String × Json)) (field : String) :
    ∃ v, get_topic_field (Json.obj fs) field = .ok v := by
  unfold get_topic_field
  simp only [Json.dictGet, Bind.bind, Except.bind]
  cases hk : List.lookup "topics" fs with
  | none => exact ⟨_, rfl⟩
  | some t =>
    cases t
    case arr l =>
      cases l with
      | nil => exact ⟨_, rfl⟩
      | cons t0 ts => cases t0 <;> exact ⟨_, rfl⟩
    all_goals exact ⟨_, rfl⟩

/-- Counterexample to C1 as stated: the observation record mapping
(`load_values.py` lines 114–123) raises a `KeyError` on a retained
record whose `countryiso3code` field is absent — the absent field does
not map to null — and the entity mapping raises an `AttributeError`
when the `region` sub-object is present but not a dict. -/
theorem mapping_raises_counterexample :
    mapValueItem (Json.obj [("value", Json.num 1)]) = .error ()
  ∧ mapCountry (Json.obj [("region", Json.str "x")]) = .error () :=
  ⟨rfl, rfl⟩

/-- C1 as amended: entity and metric record mapping never raises on a
dict record whose `region`/`incomeLevel`/`source` sub-fields are absent
or dicts, the entirely-empty record maps to the all-null tuple for both,
and a retained-check on an observation record with a null or absent
upstream value maps to a skip without raising; the observation mapping
itself, however, accesses its fields by direct subscription (see the
counterexample). -/
theorem mapping_safe_amended :
    (∀ c : Json, c.isObj = true → c.fieldObjOrAbsent "region" = true →
        c.fieldObjOrAbsent "incomeLevel" = true → ∃ row, mapCountry c = .ok row)
  ∧ (∀ i : Json, i.isObj = true → i.fieldObjOrAbsent "source" = true →
        ∃ row, mapIndicator i = .ok row)
  ∧ mapCountry (Json.obj []) = .ok nullCountryRow
  ∧ mapIndicator (Json.obj []) = .ok nullIndicatorRow
  ∧ (∀ item : Json, item.isObj = true →
        (item.lookupField "value" = none ∨ item.lookupField "value" = some Json.null) →
        mapValueItem item = .ok none) := by
  refine ⟨?_, ?_, rfl, rfl, ?_⟩
  · intro c h1 h2 h3
    cases c
    case obj fs =>
      obtain ⟨gs, hg⟩ := fieldObjOrAbsent_getD h2
      obtain ⟨hs, hh⟩ := fieldObjOrAbsent_getD h3
      simp only [mapCountry, Json.dictGet, Json.dictGetD, hg, hh,
        Bind.bind, Except.bind, pure, Except.pure]
      exact ⟨_, rfl⟩
    all_goals simp [Json.isObj] at h1
  · intro i h1 h2
    cases i
    case obj fs =>
      obtain ⟨gs, hg⟩ := fieldObjOrAbsent_getD h2
      obtain ⟨v1, ht1⟩ := get_topic_field_ok fs "id"
      obtain ⟨v2, ht2⟩ := get_topic_field_ok fs "value"
      simp only [mapIndicator, Json.dictGet, Json.dictGetD, hg, ht1, ht2,
        Bind.bind, Except.bind, pure, Except.pure]
      exact ⟨_, rfl⟩
    all_goals simp [Json.isObj] at h1
  · intro item h1 h
    cases item
    case obj fs =>
      rcases h with h | h <;> simp only [Json.lookupField] at h <;>
        simp [mapValueItem, Json.dictGet, h, Bind.bind, Except.bind, pure, Except.pure]
    all_goals simp [Json.isObj] at h1

/-- Witness for the amended C1 at concrete records: a country record
with only a name, an indicator record with only an id, and a
valueless observation record. -/
theorem mapping_safe_amended_witness :
    (∃ row, mapCountry (Json.obj [("name", Json.str "France")]) = .ok row)
  ∧ (∃ row, mapIndicator (Json.obj [("id", Json.str "X")]) = .ok row)
  ∧ mapValueItem (Json.obj [("countryiso3code", Json.str "FRA")]) = .ok none :=
  ⟨mapping_safe_amended.1 _ (by decide) (by decide) (by decide),
   mapping_safe_amended.2.1 _ (by decide) (by decide),
   mapping_safe_amended.2.2.2.2 _ (by decide) (Or.inl (by decide))⟩

/-! ## C10 — the year coercion is strict, not null-degrading -/

/-- C10: the observation year cast is strict — a cast that returns maps
each row to itself with the year replaced by its integer value (so an
integer-parsable date comes out as that integer), while a frame holding
one unparsable date raises, and in a full run that raise aborts the
program in an uncaught crash (no table touched, no dispose) instead of
coercing the year to null. -/
theorem year_cast_strict :
    (∀ r r' : ValueRow, astypeYear r = .ok r' →
       ∃ n : ℤ, pyIntOf r.year = .ok n ∧ r' = { r with year := Json.num (n : ℚ) })
  ∧ (∀ (rows rows' : List ValueRow), astypeYears rows = .ok rows' →
       List.Forall₂ (fun r r' => astypeYear r = .ok r') rows rows')
  ∧ (∀ (s : String) (n : ℤ), parsePyInt s = some n → pyIntOf (Json.str s) = .ok n)
  ∧ astypeYears [badYearRow] = .error ()
  ∧ runValuesMain crashEnv (some []) = some ⟨false, some [], false, true⟩ := by
  refine ⟨?_, ?_, ?_, rfl, ?_⟩
  · intro r r' h
    unfold astypeYear at h
    simp only [Bind.bind, Except.bind] at h
    cases hy : pyIntOf r.year with
    | error e => rw [hy] at h; cases h
    | ok n =>
      rw [hy] at h
      cases h
      exact ⟨n, rfl, rfl⟩
  · intro rows
    induction rows with
    | nil =>
      intro rows' h
      simp only [astypeYears] at h
      cases h
      exact List.Forall₂.nil
    | cons r rest ih =>
      intro rows' h
      simp only [astypeYears, Bind.bind, Except.bind] at h
      cases h1 : astypeYear r with
      | error e => rw [h1] at h; cases h
      | ok r1 =>
        rw [h1] at h
        cases h2 : astypeYears rest with
        | error e => rw [h2] at h; cases h
        | ok rs1 =>
          rw [h2] at h
          cases h
          exact List.Forall₂.cons h1 (ih rs1 h2)
  · intro s n h
    simp [pyIntOf, h]
  · rfl

/-- Witness for C10: the sample 2023 row casts to the integer year 2023,
and `"2023"` parses strictly to 2023. -/
theorem year_cast_strict_witness :
    (∃ n : ℤ, pyIntOf dupRow.year = .ok n ∧
       dupRowCast = { dupRow with year := Json.num (n : ℚ) }) ∧
    pyIntOf (Json.str "2023") = .ok 2023 :=
  ⟨year_cast_strict.1 dupRow dupRowCast rfl,
   year_cast_strict.2.2.1 "2023" 2023 rfl⟩

/-! ## C4 — empty collection aborts before the table is touched -/

/-- C4: when the whole collection phase yields the empty sequence (on a
healthy configuration and connection), both loaders report the condition
and return before the destination table is dropped, created or loaded:
the final store state is exactly the initial one. -/
theorem empty_result_aborts :
    (∀ (env : CountriesEnv) (init : Option (List CountryRow)) (n : ℕ),
       env.missingVars = false → env.connectOk = true →
       collectCountries env.fetch env.fuel = .ok [] n →
       runCountriesMain env init = some ⟨false, init, true, false⟩)
  ∧ (∀ (env : ValuesEnv) (init : Option (List ValueRow)) (n : ℕ),
       env.missingVars = false → env.connectOk = true →
       collectValues env.fetch env.fuel = .ok [] n →
       runValuesMain env init = some ⟨false, init, true, false⟩) := by
  constructor
  · intro env init n hm hc hcol
    simp [runCountriesMain, hm, hc, hcol]
  · intro env init n hm hc hcol
    simp [runValuesMain, hm, hc, hcol]

/-- Witness for C4: the end-of-stream environments leave the pre-existing
table contents in place and only report. -/
theorem empty_result_aborts_witness :
    runCountriesMain emptyEnvC (some [sampleAgg]) = some ⟨false, some [sampleAgg], true, false⟩ ∧
    runValuesMain emptyEnvV (some [dupRow]) = some ⟨false, some [dupRow], true, false⟩ :=
  ⟨empty_result_aborts.1 emptyEnvC (some [sampleAgg]) 1 rfl rfl rfl,
   empty_result_aborts.2 emptyEnvV (some [dupRow]) 11 rfl rfl rfl⟩

/-! ## C2 — the connection is not always released -/

/-- Counterexample to C2 as stated: two terminating countries runs with
the connection successfully established (`connectOk`) that end with the
engine never disposed — one aborted by the empty-result check, one by a
collection error.  `engine.dispose()` lives in the `finally` of the save
block only, which these paths never reach. -/
theorem dispose_counterexample :
    (emptyEnvC.connectOk = true ∧
     runCountriesMain emptyEnvC (some [sampleFra]) =
       some ⟨false, some [sampleFra], true, false⟩)
  ∧ (fetchErrEnvC.connectOk = true ∧
     runCountriesMain fetchErrEnvC (some [sampleFra]) =
       some ⟨false, some [sampleFra], false, false⟩) :=
  ⟨⟨rfl, rfl⟩, ⟨rfl, rfl⟩⟩

/-- C2 as amended: on every terminating run, the engine is disposed
exactly when execution reaches the save phase — configuration valid,
connection established, collection returned a non-empty row list (and,
for the values loader, the year cast returned).  Runs aborted during
collection, by the empty-result check, or by the year-cast crash
terminate without releasing the connection. -/
theorem dispose_amended :
    (∀ (env : CountriesEnv) (init : Option (List CountryRow)) (out : RunOutcome CountryRow),
       runCountriesMain env init = some out →
       (out.disposed = true ↔ env.missingVars = false ∧ env.connectOk = true ∧
          ∃ rows n, collectCountries env.fetch env.fuel = .ok rows n ∧ rows ≠ []))
  ∧ (∀ (env : ValuesEnv) (init : Option (List ValueRow)) (out : RunOutcome ValueRow),
       runValuesMain env init = some out →
       (out.disposed = true ↔ env.missingVars = false ∧ env.connectOk = true ∧
          ∃ rows n, collectValues env.fetch env.fuel = .ok rows n ∧ rows ≠ [] ∧
            ∃ rowsT, astypeYears rows = .ok rowsT)) := by
  constructor
  · intro env init out h
    unfold runCountriesMain at h
    cases hm : env.missingVars
    · rw [hm] at h
      cases hc : env.connectOk
      · simp [hc] at h
        cases h
        simp [hc]
      · simp only [hc, Bool.not_true, if_false] at h
        cases hcol : collectCountries env.fetch env.fuel with
        | fuelOut => rw [hcol] at h; cases h
        | err n =>
          rw [hcol] at h
          cases h
          simp [hcol]
        | ok rows n =>
          rw [hcol] at h
          cases rows with
          | nil =>
            simp only [List.isEmpty_nil, if_true] at h
            cases h
            simp [hcol]
          | cons a as =>
            simp only [List.isEmpty_cons, if_false] at h
            rcases hcreate : create_countries_table init env.dropOk env.createOk with ⟨b, st⟩
            rw [hcreate] at h
            cases b
            · cases h
              simp [hm, hc, hcol]
            · cases hins : env.insertOk
              · rw [hins] at h
                simp only [if_false] at h
                cases h
                simp [hm, hc, hcol]
              · rw [hins] at h
                simp only [if_true] at h
                cases h
                simp [hm, hc, hcol]
    · rw [hm] at h
      simp only [if_true] at h
      cases h
      simp [hm]
  · intro env init out h
    unfold runValuesMain at h
    cases hm : env.missingVars
    · rw [hm] at h
      cases hc : env.connectOk
      · simp [hc] at h
        cases h
        simp [hc]
      · simp only [hc, Bool.not_true, if_false] at h
        cases hcol : collectValues env.fetch env.fuel with
        | fuelOut => rw [hcol] at h; cases h
        | err n =>
          rw [hcol] at h
          cases h
          simp [hcol]
        | ok rows n =>
          rw [hcol] at h
          cases rows with
          | nil =>
            simp only [List.isEmpty_nil, if_true] at h
            cases h
            simp [hcol]
          | cons a as =>
            simp only [List.isEmpty_cons, if_false] at h
            cases hat : astypeYears (a :: as) with
            | error e =>
              rw [hat] at h
              cases h
              simp [hm, hc, hcol, hat]
            | ok rowsT =>
              rw [hat] at h
              rcases hcreate : create_values_table init env.dropOk env.createOk with ⟨b, st⟩
              rw [hcreate] at h
              cases b
              · cases h
                simp [hm, hc, hcol, hat]
              · cases hins : env.insertOk
                · rw [hins] at h
                  simp only [if_false] at h
                  cases h
                  simp [hm, hc, hcol, hat]
                · rw [hins] at h
                  simp only [if_true] at h
                  cases h
                  simp [hm, hc, hcol, hat]
    · rw [hm] at h
      simp only [if_true] at h
      cases h
      simp [hm]

/-- Witness for the amended C2 at two concrete runs: a fully healthy
one-page countries run (disposed, collection non-empty) and a values run
aborted by a fetch error (not disposed, no successful collection). -/
theorem dispose_amended_witness :
    ((⟨true, some [nullCountryRow], false, false⟩ : RunOutcome CountryRow).disposed = true ↔
      goodEnvC.missingVars = false ∧ goodEnvC.connectOk = true ∧
      ∃ rows n, collectCountries goodEnvC.fetch goodEnvC.fuel = .ok rows n ∧ rows ≠ [])
  ∧ ((⟨false, some [], false, false⟩ : RunOutcome ValueRow).disposed = true ↔
      fetchErrEnvV.missingVars = false ∧ fetchErrEnvV.connectOk = true ∧
      ∃ rows n, collectValues fetchErrEnvV.fetch fetchErrEnvV.fuel = .ok rows n ∧ rows ≠ [] ∧
        ∃ rowsT, astypeYears rows = .ok rowsT) :=
  ⟨dispose_amended.1 goodEnvC (some []) ⟨true, some [nullCountryRow], false, false⟩ rfl,
   dispose_amended.2 fetchErrEnvV (some []) ⟨false, some [], false, false⟩ rfl⟩

/-! ## C3 — pagination termination and fetch counts -/

/-- One unfolding of the countries loop on a well-shaped page. -/
lemma collectCountriesAux_step (fetch : ℕ → Json) (fuel page : ℕ)
    (acc : List CountryRow) (cnt : ℕ) (meta i : Json) (tl rest : List Json)
    (rows0 : List CountryRow) (q : ℚ)
    (hj : fetch page = Json.arr (meta :: Json.arr (i :: tl) :: rest))
    (hmap : mapCountries (i :: tl) = .ok rows0)
    (hpages : getPagesTotal meta = .ok q) :
    collectCountriesAux fetch (fuel + 1) page acc cnt =
      if (page : ℚ) ≥ q then .ok (acc ++ rows0) (cnt + 1)
      else collectCountriesAux fetch fuel (page + 1) (acc ++ rows0) (cnt + 1) := by
  simp [collectCountriesAux, hj, hmap, hpages, Json.truthy]

/-- One unfolding of the observations inner loop on a well-shaped page. -/
lemma collectValuesAux_step (fetch : ℕ → Json) (fuel page : ℕ)
    (acc : List ValueRow) (cnt : ℕ) (meta i : Json) (tl rest : List Json)
    (rows0 : List ValueRow) (q : ℚ)
    (hj : fetch page = Json.arr (meta :: Json.arr (i :: tl) :: rest))
    (hmap : mapValuesPage (i :: tl) = .ok rows0)
    (hpages : getPagesTotal meta = .ok q) :
    collectValuesAux fetch (fuel + 1) page acc cnt =
      if (page : ℚ) ≥ q then .ok (acc ++ rows0) (cnt + 1)
      else collectValuesAux fetch fuel (page + 1) (acc ++ rows0) (cnt + 1) := by
  simp [collectValuesAux, hj, hmap, hpages, Json.truthy]

/-- Fetch count of the countries loop: under well-formed pages reporting
`p` total pages, starting at `page ≤ p` the loop walks pages
`page, …, p` and issues exactly `p + 1 - page` further fetches. -/
lemma collectCountriesAux_count (fetch : ℕ → Json) (p : ℕ)
    (hwf : ∀ k, 1 ≤ k → k ≤ p → wfCountryPage p (fetch k)) :
    ∀ (fuel page : ℕ) (acc : List CountryRow) (cnt : ℕ),
      1 ≤ page → page ≤ p → p + 1 - page ≤ fuel →
      ∃ rows, collectCountriesAux fetch fuel page acc cnt =
        .ok rows (cnt + (p + 1 - page)) := by
  intro fuel
  induction fuel with
  | zero => intro page acc cnt h1 h2 h3; omega
  | succ fuel ih =>
    intro page acc cnt h1 h2 h3
    obtain ⟨meta, items, rest, rows0, hj, hne, hmap, hpages⟩ := hwf page h1 h2
    cases items with
    | nil => exact absurd rfl hne
    | cons i tl =>
      rw [collectCountriesAux_step fetch fuel page acc cnt meta i tl rest rows0
        ((p : ℕ) : ℚ) hj hmap hpages]
      by_cases hpp : page = p
      · subst hpp
        rw [if_pos (le_refl _)]
        have hp1 : page + 1 - page = 1 := by omega
        rw [hp1]
        exact ⟨acc ++ rows0, rfl⟩
      · have hlt : page < p := lt_of_le_of_ne h2 hpp
        rw [if_neg (by exact_mod_cast not_le.mpr hlt)]
        obtain ⟨rows, hrec⟩ :=
          ih (page + 1) (acc ++ rows0) (cnt + 1) (by omega) (by omega) (by omega)
        refine ⟨rows, ?_⟩
        rw [hrec]
        congr 1
        omega

/-- Fetch count of the observations inner loop, same shape. -/
lemma collectValuesAux_count (fetch : ℕ → Json) (p : ℕ)
    (hwf : ∀ k, 1 ≤ k → k ≤ p → wfValuesPage p (fetch k)) :
    ∀ (fuel page : ℕ) (acc : List ValueRow) (cnt : ℕ),
      1 ≤ page → page ≤ p → p + 1 - page ≤ fuel →
      ∃ rows, collectValuesAux fetch fuel page acc cnt =
        .ok rows (cnt + (p + 1 - page)) := by
  intro fuel
  induction fuel with
  | zero => intro page acc cnt h1 h2 h3; omega
  | succ fuel ih =>
    intro page acc cnt h1 h2 h3
    obtain ⟨meta, items, rest, rows0, hj, hne, hmap, hpages⟩ := hwf page h1 h2
    cases items with
    | nil => exact absurd rfl hne
    | cons i tl =>
      rw [collectValuesAux_step fetch fuel page acc cnt meta i tl rest rows0
        ((p : ℕ) : ℚ) hj hmap hpages]
      by_cases hpp : page = p
      · subst hpp
        rw [if_pos (le_refl _)]
        have hp1 : page + 1 - page = 1 := by omega
        rw [hp1]
        exact ⟨acc ++ rows0, rfl⟩
      · have hlt : page < p := lt_of_le_of_ne h2 hpp
        rw [if_neg (by exact_mod_cast not_le.mpr hlt)]
        obtain ⟨rows, hrec⟩ :=
          ih (page + 1) (acc ++ rows0) (cnt + 1) (by omega) (by omega) (by omega)
        refine ⟨rows, ?_⟩
        rw [hrec]
        congr 1
        omega

/-- Counterexample to C3 as stated for total page count 0: the only page
the collector fetches is well-formed, non-empty and reports `pages = 0`,
yet the collector performs 1 fetch, not 0 — the loop always issues the
first request before consulting the page count. -/
theorem pagination_counterexample :
    wfCountryPage 0 (zeroPagesFetch 1)
  ∧ collectCountries zeroPagesFetch 5 = .ok [nullCountryRow] 1
  ∧ (1 : ℕ) ≠ 0 := by
  refine ⟨⟨Json.obj [("pages", Json.num 0)], [Json.obj []], [], [nullCountryRow],
    rfl, by decide, rfl, by simp [getPagesTotal]⟩, rfl, by decide⟩

/-- C3 as amended (for `p ≥ 1`): when every fetched page is a
well-formed two-element response with non-empty records and
`metadata.pages = p`, both collectors perform exactly `p` page fetches
(pages 1 through `p`) and stop without a `(p+1)`-th request; a page
whose metadata carries no `pages` key is treated as `pages = 1` and the
collector stops after that single fetch. -/
theorem pagination_fetch_count :
    (∀ (fetch : ℕ → Json) (p fuel : ℕ), 1 ≤ p → p ≤ fuel →
       (∀ k, 1 ≤ k → k ≤ p → wfCountryPage p (fetch k)) →
       ∃ rows, collectCountries fetch fuel = .ok rows p)
  ∧ (∀ (fetch : ℕ → Json) (p fuel : ℕ), 1 ≤ p → p ≤ fuel →
       (∀ k, 1 ≤ k → k ≤ p → wfValuesPage p (fetch k)) →
       ∃ rows, collectValuesAux fetch fuel 1 [] 0 = .ok rows p)
  ∧ (∀ (fetch : ℕ → Json) (fuel : ℕ) (ms : List (String × Json))
       (items rest : List Json) (rows : List CountryRow),
       1 ≤ fuel → fetch 1 = Json.arr (Json.obj ms :: Json.arr items :: rest) →
       ms.lookup "pages" = none → items ≠ [] → mapCountries items = .ok rows →
       collectCountries fetch fuel = .ok rows 1) := by
  refine ⟨?_, ?_, ?_⟩
  · intro fetch p fuel hp hfuel hwf
    obtain ⟨rows, h⟩ := collectCountriesAux_count fetch p hwf fuel 1 [] 0
      (le_refl 1) hp (by omega)
    refine ⟨rows, ?_⟩
    rw [collectCountries, h]
    congr 1
    omega
  · intro fetch p fuel hp hfuel hwf
    obtain ⟨rows, h⟩ := collectValuesAux_count fetch p hwf fuel 1 [] 0
      (le_refl 1) hp (by omega)
    refine ⟨rows, ?_⟩
    rw [h]
    congr 1
    omega
  · intro fetch fuel ms items rest rows hfuel hj hnopages hne hmap
    cases fuel with
    | zero => omega
    | succ fuel =>
      cases items with
      | nil => exact absurd rfl hne
      | cons i tl =>
        have hpages : getPagesTotal (Json.obj ms) = .ok ((1 : ℕ) : ℚ) := by
          simp [getPagesTotal, hnopages]
        rw [collectCountries,
          collectCountriesAux_step fetch fuel 1 [] 0 (Json.obj ms) i tl rest rows
            ((1 : ℕ) : ℚ) hj hmap hpages,
          if_pos (le_refl _)]
        rw [List.nil_append]

/-- Witness for the amended C3: a constant two-page countries fetch and
observations fetch each stop after exactly 2 fetches, and a page without
a `pages` key stops after exactly 1. -/
theorem pagination_fetch_count_witness :
    (∃ rows, collectCountries constTwoFetch 2 = .ok rows 2)
  ∧ (∃ rows, collectValuesAux constTwoFetchV 2 1 [] 0 = .ok rows 2)
  ∧ collectCountries constNoPagesFetch 1 = .ok [nullCountryRow] 1 :=
  ⟨pagination_fetch_count.1 constTwoFetch 2 2 (by decide) (by decide)
      (fun k _ _ => ⟨Json.obj [("pages", Json.num 2)], [Json.obj []], [],
        [nullCountryRow], rfl, by decide, rfl, by simp [getPagesTotal]⟩),
   pagination_fetch_count.2.1 constTwoFetchV 2 2 (by decide) (by decide)
      (fun k _ _ => ⟨Json.obj [("pages", Json.num 2)], [nullItem], [],
        [], rfl, by decide, rfl, by simp [getPagesTotal]⟩),
   pagination_fetch_count.2.2 constNoPagesFetch 1 [] [Json.obj []] [] [nullCountryRow]
      (by decide) rfl rfl (by decide) rfl⟩

end ETL
